import Mathlib

/-!
Verification of the kolibri background-job scheduler web layer
(src/kolibri/core/tasks/api.py) against its natural-language specification.

The file shallowly embeds the Python code: dicts become association lists,
JSON-ish values become the inductive `Value`, raised exceptions become
`Except`, and the queue/storage backend (kolibri.core.tasks.main, which is
not part of the sources) is modelled from the specification, with each such
definition marked `Modelled from the spec:` in its doc comment.
-/

set_option autoImplicit false

namespace KolibriTasks

/-- Modelled from the spec: the job state enumeration of
kolibri.core.tasks.job.State (not in the sources; §3 of the spec lists the
seven states). -/
inductive State where
  | SCHEDULED
  | QUEUED
  | RUNNING
  | CANCELING
  | CANCELED
  | COMPLETED
  | FAILED
deriving DecidableEq, Repr

/-- Terminal states per the spec: COMPLETED, FAILED, CANCELED. -/
def State.isTerminal : State → Bool
  | State.CANCELED => true
  | State.COMPLETED => true
  | State.FAILED => true
  | _ => false

/-- JSON-like values appearing in request bodies, job metadata and
responses. Numeric values are rationals (Python floats/ints at the
precision the claims need). -/
inductive Value where
  | null
  | str (s : String)
  | bool (b : Bool)
  | rat (q : ℚ)
  | state (st : State)
  | listV (vs : List Value)

/-- Python dict membership/lookup: first entry with the key. -/
def dictGet (d : List (String × Value)) (k : String) : Option Value :=
  match d with
  | [] => none
  | (k1, v) :: rest => if k1 = k then some v else dictGet rest k

/-- Python dict assignment semantics: replace the value at the key in
place if present, else append the pair. -/
def dictSet (d : List (String × Value)) (k : String) (v : Value) :
    List (String × Value) :=
  match d with
  | [] => [(k, v)]
  | (k1, v1) :: rest =>
    if k1 = k then (k1, v) :: rest else (k1, v1) :: dictSet rest k v

/-- Python `d.update(u)`: assign every pair of `u` into `d`, in order. -/
def dictUpdate (d : List (String × Value)) :
    List (String × Value) → List (String × Value)
  | [] => d
  | (k, v) :: rest => dictUpdate (dictSet d k v) rest

/-- A job record (kolibri.core.tasks.job.Job is not in the sources).
Modelled from the spec: §3 lists the fields; `exception`/`traceback` are
optional diagnostic strings, `percentage_progress` a number starting at
0.0, `extra_metadata` a free-form caller-supplied mapping. -/
structure Job where
  job_id : String
  state : State
  exception : Option String
  traceback : Option String
  percentage_progress : ℚ
  cancellable : Bool
  track_progress : Bool
  extra_metadata : List (String × Value)

/-- Python `str` applied to an optional string (str(None) is "None"). -/
def pyStr : Option String → String
  | none => "None"
  | some s => s

/-- Embeds `_job_to_response` of src/kolibri/core/tasks/api.py: a falsy
job yields the fixed placeholder dict; otherwise the base summary dict is
built and then `output.update(job.extra_metadata)` merges the metadata. -/
def _job_to_response (job : Option Job) : List (String × Value) :=
  match job with
  | none =>
    [("type", Value.null),
     ("started_by", Value.null),
     ("status", Value.state State.SCHEDULED),
     ("percentage", Value.rat 0),
     ("progress", Value.listV []),
     ("id", Value.null),
     ("cancellable", Value.bool false)]
  | some job =>
    dictUpdate
      [("status", Value.state job.state),
       ("exception", Value.str (pyStr job.exception)),
       ("traceback", Value.str (pyStr job.traceback)),
       ("percentage", Value.rat job.percentage_progress),
       ("id", Value.str job.job_id),
       ("cancellable", Value.bool job.cancellable)]
      job.extra_metadata

/-- Errors raised by the queue facade. -/
inductive TaskError where
  | JobNotFound
deriving DecidableEq, Repr

/-- Storage is the ordered table of job records (insertion order). -/
abbrev Storage := List Job

/-- Modelled from the spec: `fetch_job(job_id) -> Job` of the queue facade
(kolibri.core.tasks.main.queue is not in the sources); fails with
JobNotFound if no record with that id exists. -/
def fetch_job (s : Storage) (job_id : String) : Except TaskError Job :=
  match List.find? (fun x => x.job_id == job_id) s with
  | some j => Except.ok j
  | none => Except.error TaskError.JobNotFound

/-- Modelled from the spec: the per-job effect of `cancel(job_id)` (§4.3).
A job that is not cancellable is left unchanged (§3 "cancellation requests
are rejected for this job", §8 "Cancelling a non-cancellable job is a
no-op: state is unchanged"); a terminal job is left untouched; a SCHEDULED
or QUEUED job transitions synchronously to CANCELED; a RUNNING job
transitions to CANCELING. -/
def cancelJob (j : Job) : Job :=
  if j.cancellable = false then j
  else if j.state.isTerminal then j
  else if j.state = State.SCHEDULED ∨ j.state = State.QUEUED then
    { j with state := State.CANCELED }
  else if j.state = State.RUNNING then
    { j with state := State.CANCELING }
  else j

/-- Modelled from the spec: `cancel(job_id)` of the queue facade; fails
with JobNotFound if the id does not exist, else applies the cancel
transition to the record with that id. -/
def cancel (s : Storage) (job_id : String) : Except TaskError Storage :=
  if List.any s (fun x => x.job_id == job_id) then
    Except.ok (List.map (fun x => if x.job_id == job_id then cancelJob x else x) s)
  else Except.error TaskError.JobNotFound

/-- Modelled from the spec: `clear_job(job_id)` of the queue facade;
removes the record only when it is in a terminal state, silently leaving
non-terminal records intact; JobNotFound when the id is absent (§7). -/
def clear_job (s : Storage) (job_id : String) : Except TaskError Storage :=
  if List.any s (fun x => x.job_id == job_id) then
    Except.ok (List.filter (fun x => !(x.job_id == job_id && x.state.isTerminal)) s)
  else Except.error TaskError.JobNotFound

/-- Modelled from the spec: `enqueue` of the queue facade; creates a Job
in SCHEDULED with percentage_progress 0.0 and the given options, persists
it, and returns its id (the fresh id is a parameter of the model). -/
def enqueue (s : Storage) (job_id : String) (cancellable track_progress : Bool)
    (extra_metadata : List (String × Value)) : Storage × String :=
  (s ++ [{ job_id := job_id
           state := State.SCHEDULED
           exception := none
           traceback := none
           percentage_progress := 0
           cancellable := cancellable
           track_progress := track_progress
           extra_metadata := extra_metadata }], job_id)

/-- Modelled from the spec: the per-job effect of the injected
`update_progress(fraction)` callback (§4.3): clamps to [0,1], no-ops if
track_progress is false, ignored if the job is no longer RUNNING. -/
def update_progressJob (j : Job) (fraction : ℚ) : Job :=
  if j.track_progress = false then j
  else if j.state = State.RUNNING then
    { j with percentage_progress := max 0 (min 1 fraction) }
  else j

/-- A progress update addressed to one job id in storage. -/
def update_progress (s : Storage) (job_id : String) (fraction : ℚ) : Storage :=
  List.map (fun x => if x.job_id == job_id then update_progressJob x fraction else x) s

/-- The spec invariant that job ids are unique across Storage (§3). -/
def uniqueIds (s : Storage) : Prop :=
  List.Nodup (List.map (fun j => j.job_id) s)

/-- Responses produced by the web layer in src/kolibri/core/tasks/api.py:
a DRF Response with a dict payload, a raised Http404, or a raised
serializers.ValidationError. -/
inductive ApiResponse where
  | ok (payload : List (String × Value))
  | http404 (msg : String)
  | validationError (msg : String)

/-- Whether a response is the user-facing not-found (404-equivalent). -/
def ApiResponse.isNotFound : ApiResponse → Bool
  | ApiResponse.http404 _ => true
  | _ => false

/-- Embeds `TasksViewSet.retrieve` of src/kolibri/core/tasks/api.py:
returns the summary of the fetched job, and turns JobNotFound into
Http404("Task with {pk} not found"). -/
def retrieve (s : Storage) (pk : String) : ApiResponse :=
  match fetch_job s pk with
  | Except.ok j => ApiResponse.ok (_job_to_response (some j))
  | Except.error TaskError.JobNotFound =>
    ApiResponse.http404 ("Task with " ++ pk ++ " not found")

/-- Outcome of the `canceltask` endpoint: the response, the storage after
the call, and how many times `queue.cancel` was invoked. -/
structure CancelTaskResult where
  response : ApiResponse
  storage : Storage
  cancelCalls : Nat

/-- Embeds `TasksViewSet.canceltask` of src/kolibri/core/tasks/api.py:
validates that the request body has a string task_id, then invokes
queue.cancel once, swallowing JobNotFound, and returns Response({}). -/
def canceltask (s : Storage) (data : List (String × Value)) : CancelTaskResult :=
  match dictGet data "task_id" with
  | none =>
    { response := ApiResponse.validationError "The 'task_id' field is required."
      storage := s
      cancelCalls := 0 }
  | some (Value.str task_id) =>
    match cancel s task_id with
    | Except.ok s2 =>
      { response := ApiResponse.ok [], storage := s2, cancelCalls := 1 }
    | Except.error TaskError.JobNotFound =>
      { response := ApiResponse.ok [], storage := s, cancelCalls := 1 }
  | some _ =>
    { response := ApiResponse.validationError "The 'task_id' should be a string."
      storage := s
      cancelCalls := 0 }

/-- Whether a request-body value is a Python string. -/
def Value.isStr : Value → Bool
  | Value.str _ => true
  | _ => false

/-- Exceptions relevant to `_localexport`. -/
inductive PyError where
  | userCancelled
  | osError
  | otherError
deriving DecidableEq, Repr

/-- Outcome of one `call_command` invocation inside a job body. -/
inductive CommandOutcome where
  | ok
  | raises (e : PyError)
deriving DecidableEq, Repr

/-- Modelled from the spec: path of the exported content database file of
a channel under a datafolder
(kolibri.core.content.utils.paths.get_content_database_file_path is not
in the sources; only the call site in `_localexport` is). -/
def get_content_database_file_path (channel_id : String) (datafolder : String) :
    String :=
  datafolder ++ "/content/databases/" ++ channel_id ++ ".sqlite3"

/-- Python `os.remove(path)` on a filesystem modelled as the list of
existing paths: removes the path if present, else raises OSError. -/
def osRemove (fs : List String) (path : String) :
    Except PyError (List String) :=
  if path ∈ fs then Except.ok (List.filter (fun p => p ≠ path) fs)
  else Except.error PyError.osError

/-- Embeds `_localexport` of src/kolibri/core/tasks/api.py. The mounted
drive lookup and the two `call_command` invocations are external
collaborators, so the model takes the drive-to-datafolder map and each
command outcome as parameters; the filesystem is the list of existing
paths. On UserCancelledError from exportcontent the code removes the
channel database file on the drive, swallows any OSError from the
removal, and re-raises; any other error propagates untouched. Returns the
overall outcome together with the final filesystem. -/
def _localexport (drives : String → String)
    (exportchannelOutcome exportcontentOutcome : CommandOutcome)
    (fs : List String) (channel_id drive_id : String) :
    Except PyError Unit × List String :=
  let datafolder := drives drive_id
  match exportchannelOutcome with
  | CommandOutcome.raises e => (Except.error e, fs)
  | CommandOutcome.ok =>
    match exportcontentOutcome with
    | CommandOutcome.ok => (Except.ok (), fs)
    | CommandOutcome.raises PyError.userCancelled =>
      let path := get_content_database_file_path channel_id datafolder
      let fs2 := match osRemove fs path with
                 | Except.ok fs2 => fs2
                 | Except.error _ => fs
      (Except.error PyError.userCancelled, fs2)
    | CommandOutcome.raises e => (Except.error e, fs)

/-- A job whose extra_metadata collides with the summary key "id". -/
def jobSpoof : Job :=
  { job_id := "job1"
    state := State.RUNNING
    exception := none
    traceback := none
    percentage_progress := 1/2
    cancellable := true
    track_progress := true
    extra_metadata := [("id", Value.str "spoof")] }

/-- A job with the typical collision-free caller metadata. -/
def jobMeta : Job :=
  { job_id := "job2"
    state := State.RUNNING
    exception := some "err"
    traceback := some "tb"
    percentage_progress := 1/2
    cancellable := true
    track_progress := true
    extra_metadata := [("type", Value.str "REMOTEIMPORT"), ("started_by", Value.rat 1)] }

/-- A running job enqueued with cancellable=False. -/
def jobNoCancel : Job :=
  { job_id := "a"
    state := State.RUNNING
    exception := none
    traceback := none
    percentage_progress := 0
    cancellable := false
    track_progress := false
    extra_metadata := [] }

/-- A completed (terminal) job. -/
def jobDone : Job :=
  { job_id := "b"
    state := State.COMPLETED
    exception := none
    traceback := none
    percentage_progress := 1
    cancellable := true
    track_progress := true
    extra_metadata := [] }

/-- The record that enqueueing id "j1" on an empty storage creates. -/
def enqJob : Job :=
  { job_id := "j1"
    state := State.SCHEDULED
    exception := none
    traceback := none
    percentage_progress := 0
    cancellable := true
    track_progress := true
    extra_metadata := [] }

/-- A queued (non-terminal) job. -/
def jobQueued : Job :=
  { job_id := "c"
    state := State.QUEUED
    exception := none
    traceback := none
    percentage_progress := 0
    cancellable := true
    track_progress := true
    extra_metadata := [] }

theorem dictGet_dictSet_same (d : List (String × Value)) (k : String) (v : Value) :
    dictGet (dictSet d k v) k = some v := by
  induction d with
  | nil => simp [dictSet, dictGet]
  | cons p rest ih =>
    obtain ⟨k1, v1⟩ := p
    by_cases h : k1 = k
    · simp [dictSet, h, dictGet]
    · simp [dictSet, h, dictGet, ih]

theorem dictGet_dictSet_other (d : List (String × Value)) (k k2 : String) (v : Value)
    (h : k2 ≠ k) : dictGet (dictSet d k2 v) k = dictGet d k := by
  induction d with
  | nil => simp [dictSet, dictGet, h]
  | cons p rest ih =>
    obtain ⟨k1, v1⟩ := p
    by_cases h1 : k1 = k2
    · subst h1
      simp [dictSet, dictGet, h]
    · simp [dictSet, h1, dictGet, ih]

theorem dictGet_dictUpdate_not_mem (d u : List (String × Value)) (k : String)
    (h : k ∉ List.map Prod.fst u) :
    dictGet (dictUpdate d u) k = dictGet d k := by
  induction u generalizing d with
  | nil => rfl
  | cons p rest ih =>
    obtain ⟨k1, v1⟩ := p
    simp only [List.map_cons, List.mem_cons] at h
    push_neg at h
    rw [dictUpdate, ih _ h.2, dictGet_dictSet_other]
    exact fun he => h.1 he.symm

theorem dictGet_dictUpdate_mem (d u : List (String × Value)) (k : String) (v : Value)
    (hnd : List.Nodup (List.map Prod.fst u)) (h : dictGet u k = some v) :
    dictGet (dictUpdate d u) k = some v := by
  induction u generalizing d with
  | nil => simp [dictGet] at h
  | cons p rest ih =>
    obtain ⟨k1, v1⟩ := p
    simp only [List.map_cons, List.nodup_cons] at hnd
    rw [dictUpdate]
    by_cases hk : k1 = k
    · subst hk
      rw [dictGet, if_pos rfl] at h
      rw [dictGet_dictUpdate_not_mem _ _ _ hnd.1, dictGet_dictSet_same, h]
    · rw [dictGet, if_neg hk] at h
      exact ih _ hnd.2 h

theorem map_matching_eq_self (s : Storage) (job_id : String) (f : Job → Job)
    (h : ∀ x ∈ s, x.job_id = job_id → f x = x) :
    List.map (fun x => if x.job_id == job_id then f x else x) s = s := by
  induction s with
  | nil => rfl
  | cons a t ih =>
    simp only [List.map_cons]
    have ha : (if a.job_id == job_id then f a else a) = a := by
      by_cases hc : a.job_id = job_id
      · simp [hc, h a (List.mem_cons_self a t) hc]
      · simp [hc]
    rw [ha, ih (fun x hx hxe => h x (List.mem_cons_of_mem a hx) hxe)]

theorem find_matching_unique (s : Storage) (job_id : String) (j : Job)
    (huniq : uniqueIds s)
    (hfind : List.find? (fun x => x.job_id == job_id) s = some j) :
    ∀ x ∈ s, x.job_id = job_id → x = j := by
  intro x hx hxe
  have hj : j ∈ s := List.mem_of_find?_eq_some hfind
  have hpj := List.find?_some hfind
  have hje : j.job_id = job_id := by simpa using hpj
  exact List.inj_on_of_nodup_map huniq hx hj (by rw [hxe, hje])

theorem fetch_job_ok_iff (s : Storage) (job_id : String) (j : Job) :
    fetch_job s job_id = Except.ok j ↔
      List.find? (fun x => x.job_id == job_id) s = some j := by
  rw [fetch_job]
  cases h : List.find? (fun x => x.job_id == job_id) s <;> simp

theorem fetch_job_error_iff (s : Storage) (job_id : String) :
    fetch_job s job_id = Except.error TaskError.JobNotFound ↔
      List.find? (fun x => x.job_id == job_id) s = none := by
  rw [fetch_job]
  cases h : List.find? (fun x => x.job_id == job_id) s <;> simp

theorem any_matching_of_find (s : Storage) (job_id : String) (j : Job)
    (hfind : List.find? (fun x => x.job_id == job_id) s = some j) :
    List.any s (fun x => x.job_id == job_id) = true := by
  have hp := List.find?_some hfind
  exact List.any_eq_true.mpr ⟨j, List.mem_of_find?_eq_some hfind, hp⟩

theorem _job_to_response_some (j : Job) :
    _job_to_response (some j) =
      dictUpdate
        [("status", Value.state j.state),
         ("exception", Value.str (pyStr j.exception)),
         ("traceback", Value.str (pyStr j.traceback)),
         ("percentage", Value.rat j.percentage_progress),
         ("id", Value.str j.job_id),
         ("cancellable", Value.bool j.cancellable)]
        j.extra_metadata := rfl

/-- Claim C8: applied to a missing or falsy job, _job_to_response does not
fail and returns the fixed placeholder summary: status SCHEDULED,
percentage 0, id None, cancellable False, an empty progress list, and type
and started_by set to None. -/
theorem C8_placeholder_summary :
    _job_to_response none =
      [("type", Value.null),
       ("started_by", Value.null),
       ("status", Value.state State.SCHEDULED),
       ("percentage", Value.rat 0),
       ("progress", Value.listV []),
       ("id", Value.null),
       ("cancellable", Value.bool false)] := rfl

/-- Claim C9: when the exportcontent step of _localexport raises
UserCancelledError, _localexport re-raises UserCancelledError and the
channel's exported content database file is absent from the drive
afterwards: the removal is attempted and any OSError from it (e.g. the
file was never created) is swallowed. -/
theorem C9_localexport_cancel_cleanup (drives : String → String)
    (fs : List String) (channel_id drive_id : String) :
    (_localexport drives CommandOutcome.ok
        (CommandOutcome.raises PyError.userCancelled) fs channel_id drive_id).1 =
      Except.error PyError.userCancelled ∧
    get_content_database_file_path channel_id (drives drive_id) ∉
      (_localexport drives CommandOutcome.ok
        (CommandOutcome.raises PyError.userCancelled) fs channel_id drive_id).2 := by
  constructor
  · by_cases hmem :
      get_content_database_file_path channel_id (drives drive_id) ∈ fs
    · simp [_localexport, osRemove, hmem]
    · simp [_localexport, osRemove, hmem]
  · by_cases hmem :
      get_content_database_file_path channel_id (drives drive_id) ∈ fs
    · simp [_localexport, osRemove, hmem, List.mem_filter]
    · simp [_localexport, osRemove, hmem]

/-- Claim C10: the cancel endpoint rejects, with a validation error and
without invoking queue.cancel, a request body lacking a task_id key or
whose task_id is not a string; for every string task_id it invokes
queue.cancel exactly once and returns an empty success response. -/
theorem C10_canceltask_validation (s : Storage) (data : List (String × Value)) :
    (dictGet data "task_id" = none →
      canceltask s data =
        { response := ApiResponse.validationError "The 'task_id' field is required."
          storage := s
          cancelCalls := 0 }) ∧
    (∀ v, dictGet data "task_id" = some v → v.isStr = false →
      canceltask s data =
        { response := ApiResponse.validationError "The 'task_id' should be a string."
          storage := s
          cancelCalls := 0 }) ∧
    (∀ tid, dictGet data "task_id" = some (Value.str tid) →
      (canceltask s data).cancelCalls = 1 ∧
      (canceltask s data).response = ApiResponse.ok []) := by
  refine ⟨?_, ?_, ?_⟩
  · intro h
    simp [canceltask, h]
  · intro v hv hstr
    cases v with
    | str s2 => simp [Value.isStr] at hstr
    | null => simp [canceltask, hv]
    | bool b => simp [canceltask, hv]
    | rat q => simp [canceltask, hv]
    | state st => simp [canceltask, hv]
    | listV vs => simp [canceltask, hv]
  · intro tid h
    cases hc : cancel s tid with
    | ok s2 => simp [canceltask, h, hc]
    | error e => cases e; simp [canceltask, h, hc]

theorem C10_canceltask_validation_witness :
    canceltask [jobQueued] [] =
      { response := ApiResponse.validationError "The 'task_id' field is required."
        storage := [jobQueued]
        cancelCalls := 0 } ∧
    canceltask [jobQueued] [("task_id", Value.rat 3)] =
      { response := ApiResponse.validationError "The 'task_id' should be a string."
        storage := [jobQueued]
        cancelCalls := 0 } ∧
    (canceltask [jobQueued] [("task_id", Value.str "c")]).cancelCalls = 1 ∧
    (canceltask [jobQueued] [("task_id", Value.str "c")]).response = ApiResponse.ok [] :=
  ⟨(C10_canceltask_validation [jobQueued] []).1 rfl,
   (C10_canceltask_validation [jobQueued] [("task_id", Value.rat 3)]).2.1
     (Value.rat 3) rfl rfl,
   (C10_canceltask_validation [jobQueued] [("task_id", Value.str "c")]).2.2 "c" rfl⟩

/-- Claim C3: fetching a job id for which no record exists fails with
JobNotFound, and the retrieve endpoint converts that JobNotFound into a
404 response naming the missing id. -/
theorem C3_retrieve_not_found (s : Storage) (pk : String)
    (habsent : ∀ x ∈ s, x.job_id ≠ pk) :
    fetch_job s pk = Except.error TaskError.JobNotFound ∧
    retrieve s pk = ApiResponse.http404 ("Task with " ++ pk ++ " not found") := by
  have hfind : List.find? (fun x => x.job_id == pk) s = none := by
    rw [List.find?_eq_none]
    intro x hx
    simp [habsent x hx]
  have hf : fetch_job s pk = Except.error TaskError.JobNotFound :=
    (fetch_job_error_iff s pk).mpr hfind
  exact ⟨hf, by simp [retrieve, hf]⟩

theorem C3_retrieve_not_found_witness :
    fetch_job [jobQueued] "zzz" = Except.error TaskError.JobNotFound ∧
    retrieve [jobQueued] "zzz" =
      ApiResponse.http404 ("Task with " ++ "zzz" ++ " not found") :=
  C3_retrieve_not_found [jobQueued] "zzz" (by decide)

/-- Claim C2 as stated is false on the code: with an absent job id the
cancel endpoint does raise JobNotFound inside queue.cancel, but
canceltask swallows it (except JobNotFound: pass) and returns the empty
success Response({}), never a 404-equivalent. Shown here at the concrete
input of an empty storage and task_id "x". -/
theorem C2_counterexample :
    cancel [] "x" = Except.error TaskError.JobNotFound ∧
    (canceltask [] [("task_id", Value.str "x")]).response = ApiResponse.ok [] ∧
    ((canceltask [] [("task_id", Value.str "x")]).response).isNotFound = false :=
  ⟨rfl, rfl, rfl⟩

/-- Claim C2 (amended): for every cancel request whose job id is absent
from storage, queue.cancel raises JobNotFound, and the cancel endpoint
catches it and silently ignores it, returning the empty success response
(not a 404-equivalent). -/
theorem C2_cancel_not_found_swallowed (s : Storage) (data : List (String × Value))
    (tid : String) (hdata : dictGet data "task_id" = some (Value.str tid))
    (habsent : ∀ x ∈ s, x.job_id ≠ tid) :
    cancel s tid = Except.error TaskError.JobNotFound ∧
    canceltask s data =
      { response := ApiResponse.ok [], storage := s, cancelCalls := 1 } := by
  have hany : List.any s (fun x => x.job_id == tid) = false := by
    rw [Bool.eq_false_iff]
    intro hc
    obtain ⟨x, hx, hpx⟩ := List.any_eq_true.mp hc
    exact habsent x hx (by simpa using hpx)
  have hc : cancel s tid = Except.error TaskError.JobNotFound := by
    rw [cancel, if_neg (by simp [hany])]
  exact ⟨hc, by simp [canceltask, hdata, hc]⟩

theorem C2_cancel_not_found_swallowed_witness :
    cancel [jobQueued] "zzz" = Except.error TaskError.JobNotFound ∧
    canceltask [jobQueued] [("task_id", Value.str "zzz")] =
      { response := ApiResponse.ok [], storage := [jobQueued], cancelCalls := 1 } :=
  C2_cancel_not_found_swallowed [jobQueued] [("task_id", Value.str "zzz")] "zzz"
    rfl (by decide)

/-- Claim C1 as stated is false on the code: `output.update(job.extra_metadata)`
runs after the base summary is built, so a caller-supplied extra_metadata
entry with key "id" overwrites what the summary reports for the job's id.
Shown at the concrete job jobSpoof (job_id "job1", metadata id "spoof"). -/
theorem C1_counterexample :
    dictGet (_job_to_response (some jobSpoof)) "id" ≠
      some (Value.str jobSpoof.job_id) := by
  intro h
  have h2 : some (Value.str "spoof") = some (Value.str "job1") := h
  injection h2 with h3
  injection h3 with h4
  exact absurd h4 (by decide)

/-- Claim C1 (amended): for every job record whose extra_metadata contains
none of the six base summary keys, the summary contains the job's own
values (status, exception and traceback as strings, percentage, id,
cancellable), and the caller-supplied extra_metadata is merged in
verbatim; when extra_metadata does contain a base key, dict.update lets
the metadata value win, in particular for the summary's id and status. -/
theorem C1_summary_fields (j : Job)
    (hnd : List.Nodup (List.map Prod.fst j.extra_metadata))
    (h1 : "status" ∉ List.map Prod.fst j.extra_metadata)
    (h2 : "exception" ∉ List.map Prod.fst j.extra_metadata)
    (h3 : "traceback" ∉ List.map Prod.fst j.extra_metadata)
    (h4 : "percentage" ∉ List.map Prod.fst j.extra_metadata)
    (h5 : "id" ∉ List.map Prod.fst j.extra_metadata)
    (h6 : "cancellable" ∉ List.map Prod.fst j.extra_metadata) :
    dictGet (_job_to_response (some j)) "status" = some (Value.state j.state) ∧
    dictGet (_job_to_response (some j)) "exception" =
      some (Value.str (pyStr j.exception)) ∧
    dictGet (_job_to_response (some j)) "traceback" =
      some (Value.str (pyStr j.traceback)) ∧
    dictGet (_job_to_response (some j)) "percentage" =
      some (Value.rat j.percentage_progress) ∧
    dictGet (_job_to_response (some j)) "id" = some (Value.str j.job_id) ∧
    dictGet (_job_to_response (some j)) "cancellable" =
      some (Value.bool j.cancellable) ∧
    (∀ k v, dictGet j.extra_metadata k = some v →
      dictGet (_job_to_response (some j)) k = some v) := by
  rw [_job_to_response_some]
  refine ⟨?_, ?_, ?_, ?_, ?_, ?_, ?_⟩
  · rw [dictGet_dictUpdate_not_mem _ _ _ h1]; rfl
  · rw [dictGet_dictUpdate_not_mem _ _ _ h2]; rfl
  · rw [dictGet_dictUpdate_not_mem _ _ _ h3]; rfl
  · rw [dictGet_dictUpdate_not_mem _ _ _ h4]; rfl
  · rw [dictGet_dictUpdate_not_mem _ _ _ h5]; rfl
  · rw [dictGet_dictUpdate_not_mem _ _ _ h6]; rfl
  · intro k v hkv
    exact dictGet_dictUpdate_mem _ _ _ _ hnd hkv

theorem C1_summary_fields_witness :
    dictGet (_job_to_response (some jobMeta)) "status" =
      some (Value.state jobMeta.state) ∧
    dictGet (_job_to_response (some jobMeta)) "id" =
      some (Value.str jobMeta.job_id) ∧
    dictGet (_job_to_response (some jobMeta)) "percentage" =
      some (Value.rat jobMeta.percentage_progress) ∧
    dictGet (_job_to_response (some jobMeta)) "type" =
      some (Value.str "REMOTEIMPORT") := by
  have h := C1_summary_fields jobMeta (by decide) (by decide) (by decide)
    (by decide) (by decide) (by decide) (by decide)
  exact ⟨h.1, h.2.2.2.2.1, h.2.2.2.1, h.2.2.2.2.2.2 "type" (Value.str "REMOTEIMPORT") rfl⟩

/-- Claim C4: for every job id returned by enqueue, fetch_job immediately
after the enqueue finds a record (never JobNotFound) whose state is
SCHEDULED or QUEUED and whose percentage_progress is 0.0. The queue is
spec-modelled; the fresh id is a model parameter, fresh by the spec's id
uniqueness invariant. -/
theorem C4_fetch_after_enqueue (s : Storage) (job_id : String)
    (c t : Bool) (m : List (String × Value))
    (hfresh : ∀ x ∈ s, x.job_id ≠ job_id) :
    (∀ j, fetch_job ((enqueue s job_id c t m).1) job_id = Except.ok j →
      (j.state = State.SCHEDULED ∨ j.state = State.QUEUED) ∧
      j.percentage_progress = 0) ∧
    fetch_job ((enqueue s job_id c t m).1) job_id ≠
      Except.error TaskError.JobNotFound := by
  have hnone : List.find? (fun x => x.job_id == job_id) s = none := by
    rw [List.find?_eq_none]
    intro x hx
    simp [hfresh x hx]
  have hfind : List.find? (fun x => x.job_id == job_id)
      ((enqueue s job_id c t m).1) =
      some { job_id := job_id, state := State.SCHEDULED, exception := none
             traceback := none, percentage_progress := 0, cancellable := c
             track_progress := t, extra_metadata := m } := by
    rw [enqueue]
    simp [List.find?_append, hnone, List.find?]
  constructor
  · intro j hj
    have h2 := (fetch_job_ok_iff _ _ _).mp hj
    rw [hfind] at h2
    injection h2 with h3
    rw [← h3]
    exact ⟨Or.inl rfl, rfl⟩
  · intro hcontra
    rw [fetch_job_error_iff, hfind] at hcontra
    exact Option.noConfusion hcontra

theorem C4_fetch_after_enqueue_witness :
    (enqJob.state = State.SCHEDULED ∨ enqJob.state = State.QUEUED) ∧
    enqJob.percentage_progress = 0 :=
  (C4_fetch_after_enqueue [] "j1" true true [] (by simp)).1 enqJob rfl

/-- Claim C5: a cancel request against a job whose cancellable flag is
false is a no-op: the storage, and in particular the job's record and
state, are unchanged. The queue is spec-modelled (non-cancellable means
the cancellation request is rejected, per the spec's data-model and
testable-properties sections). -/
theorem C5_cancel_not_cancellable (s : Storage) (job_id : String) (j : Job)
    (huniq : uniqueIds s) (hfetch : fetch_job s job_id = Except.ok j)
    (hnc : j.cancellable = false) :
    cancel s job_id = Except.ok s := by
  have hfind := (fetch_job_ok_iff s job_id j).mp hfetch
  have hany := any_matching_of_find s job_id j hfind
  rw [cancel, if_pos hany]
  congr 1
  apply map_matching_eq_self
  intro x hx hxe
  rw [find_matching_unique s job_id j huniq hfind x hx hxe]
  simp [cancelJob, hnc]

theorem C5_cancel_not_cancellable_witness :
    cancel [jobNoCancel] "a" = Except.ok [jobNoCancel] :=
  C5_cancel_not_cancellable [jobNoCancel] "a" jobNoCancel
    (by simp [uniqueIds]) rfl rfl

/-- Claim C6: no operation transitions a terminal job: a cancel request
or a progress update against it leaves the record unchanged and raises no
error (the cancel returns the storage unchanged rather than failing). The
queue is spec-modelled. -/
theorem C6_terminal_no_transition (s : Storage) (job_id : String) (j : Job) (f : ℚ)
    (huniq : uniqueIds s) (hfetch : fetch_job s job_id = Except.ok j)
    (hterm : j.state.isTerminal = true) :
    cancel s job_id = Except.ok s ∧ update_progress s job_id f = s := by
  have hfind := (fetch_job_ok_iff s job_id j).mp hfetch
  have hany := any_matching_of_find s job_id j hfind
  have huniqj := find_matching_unique s job_id j huniq hfind
  constructor
  · rw [cancel, if_pos hany]
    congr 1
    apply map_matching_eq_self
    intro x hx hxe
    rw [huniqj x hx hxe]
    by_cases hc : j.cancellable = false
    · simp [cancelJob, hc]
    · simp [cancelJob, hc, hterm]
  · rw [update_progress]
    apply map_matching_eq_self
    intro x hx hxe
    rw [huniqj x hx hxe]
    have hnr : ¬ j.state = State.RUNNING := by
      intro hr
      rw [hr] at hterm
      simp [State.isTerminal] at hterm
    by_cases ht : j.track_progress = false
    · simp [update_progressJob, ht]
    · simp [update_progressJob, ht, hnr]

theorem C6_terminal_no_transition_witness :
    cancel [jobDone] "b" = Except.ok [jobDone] ∧
    update_progress [jobDone] "b" (1/2) = [jobDone] :=
  C6_terminal_no_transition [jobDone] "b" jobDone (1/2)
    (by simp [uniqueIds]) rfl rfl

/-- Claim C7: clear_job removes the record exactly when the job is
terminal, after which fetch_job on that id raises JobNotFound, and leaves
the record intact, silently, when the job is non-terminal. The queue is
spec-modelled. -/
theorem C7_clear_job (s : Storage) (job_id : String) (j : Job)
    (huniq : uniqueIds s) (hfetch : fetch_job s job_id = Except.ok j) :
    (j.state.isTerminal = true →
      clear_job s job_id =
        Except.ok (List.filter (fun x => !(x.job_id == job_id)) s) ∧
      fetch_job (List.filter (fun x => !(x.job_id == job_id)) s) job_id =
        Except.error TaskError.JobNotFound) ∧
    (j.state.isTerminal = false → clear_job s job_id = Except.ok s) := by
  have hfind := (fetch_job_ok_iff s job_id j).mp hfetch
  have hany := any_matching_of_find s job_id j hfind
  have huniqj := find_matching_unique s job_id j huniq hfind
  constructor
  · intro hterm
    constructor
    · rw [clear_job, if_pos hany]
      congr 1
      apply List.filter_congr
      intro x hx
      by_cases hc : x.job_id = job_id
      · have hxj := huniqj x hx hc
        subst hxj
        simp [hc, hterm]
      · simp [hc]
    · rw [fetch_job_error_iff, List.find?_eq_none]
      intro x hx
      have hpx := (List.mem_filter.mp hx).2
      simpa using hpx
  · intro hterm
    rw [clear_job, if_pos hany]
    congr 1
    rw [List.filter_eq_self]
    intro x hx
    by_cases hc : x.job_id = job_id
    · have hxj := huniqj x hx hc
      subst hxj
      simp [hc, hterm]
    · simp [hc]

theorem C7_clear_job_witness :
    (clear_job [jobDone, jobQueued] "b" =
      Except.ok (List.filter (fun x => !(x.job_id == "b")) [jobDone, jobQueued]) ∧
     fetch_job (List.filter (fun x => !(x.job_id == "b")) [jobDone, jobQueued]) "b" =
      Except.error TaskError.JobNotFound) ∧
    clear_job [jobDone, jobQueued] "c" = Except.ok [jobDone, jobQueued] :=
  ⟨(C7_clear_job [jobDone, jobQueued] "b" jobDone
      (by simp [uniqueIds, jobDone, jobQueued]) rfl).1 rfl,
   (C7_clear_job [jobDone, jobQueued] "c" jobQueued
      (by simp [uniqueIds, jobDone, jobQueued]) rfl).2 rfl⟩

end KolibriTasks
